import Mathlib

/-!
Shallow embedding of the freebird event-reconciliation core, translated from
lib/freebird.js and lib/components/handlers.js.

Modelling conventions:
* JavaScript objects become structures; string literals stay string literals.
* External collaborators (netcore cooking callbacks, the objectbox registry
  backend, the RPC agent, timers) appear as oracle parameters: every
  asynchronous callback outcome is an explicit argument of the handler.
* Handler side effects (event fires, RPC indications, netcore commands,
  scheduled timeouts, replayed emissions) are recorded as an explicit list of
  actions in program order.
* A synchronous JavaScript exception escaping a handler is modelled as a
  `some errText` in the `thrown` slot of the result.
-/

namespace Freebird

/-- Bottom-level gadget notification `{ ncName, permAddr, auxId, raw }`
(handlers.js line 246).  The raw payload only flows into the external
cooking callback, so it is kept out of the queue-bookkeeping key. -/
structure GadMsg where
  ncName : String
  permAddr : String
  auxId : String
  deriving DecidableEq, Repr

/-- Key predicate of `queueEvent` (handlers.js lines 77 and 82): the queued
entry `a` matches the incoming entry `b` when ncName, permAddr and auxId all
agree. -/
def sameKey (a b : GadMsg) : Bool :=
  a.ncName == b.ncName && a.permAddr == b.permAddr && a.auxId == b.auxId

/-- Key predicate of `releasQueueEvent` (handlers.js lines 92-94): matches on
ncName and permAddr only (no auxId). -/
def devMatch (ncName permAddr : String) (g : GadMsg) : Bool :=
  g.ncName == ncName && g.permAddr == permAddr

/-- The `queueEvent` listener body (handlers.js lines 75-87): if an entry with
the same (ncName, permAddr, auxId) key is already queued, `_.remove` deletes
every matching entry; otherwise the incoming message is pushed. -/
def queueEvent (q : List GadMsg) (m : GadMsg) : List GadMsg :=
  if q.any (fun g => sameKey g m) then
    q.filter (fun g => !(sameKey g m))
  else
    q ++ [m]

/-- Number of queued entries matching the key of `m`. -/
def keyCount (q : List GadMsg) (m : GadMsg) : Nat :=
  q.countP (fun g => sameKey g m)

/-- The invariant claimed of the coalescing queue: no key has more than one
queued entry. -/
def AtMostOnePerKey (q : List GadMsg) : Prop :=
  ∀ m ∈ q, keyCount q m ≤ 1

/-! ### Step system for the coalescing queue (_gadEventQueue)

The `_gadEventQueue` array (freebird.js line 72) is mutated from exactly
three places in the source:
* `queueEvent` (handlers.js lines 75-87), attached as an `NcGadIncoming`
  listener for the duration of a device-incoming cook (line 89);
* the unconditional `freebird._gadEventQueue.push(msg)` at the top of
  `ncGadIncoming` (line 259), reached whenever the owning device is found;
* the `_.remove` in the gadget-cook callback (lines 277-279) and in
  `releasQueueEvent` (lines 92-94).

The steps below are the corresponding atomic transitions of the queue
together with the number of currently attached `queueEvent` listeners. -/

/-- State of the coalescing queue: the pending entries plus the number of
`queueEvent` listeners currently attached by in-flight device-incoming
handlers. -/
structure QState where
  queue : List GadMsg
  listeners : Nat
  deriving DecidableEq, Repr

/-- Atomic transitions of the coalescing queue. -/
inductive QStep where
  /-- `ncDevIncoming` begins: `freebird.on(NcGadIncoming, queueEvent)`
  (handlers.js line 89). -/
  | devStart
  /-- A completion path of `ncDevIncoming` runs; `removed` tells whether that
  path called `removeListener` (lines 120, 136, 155) or leaked the listener
  (cook failure, lines 110-114, and unknown netcore, lines 103-104). -/
  | devDone (removed : Bool)
  /-- An `NcGadIncoming` emission is processed: the `ncGadIncoming` handler
  pushes unconditionally when the owning device is found (line 259, `devKnown`),
  then every attached `queueEvent` listener runs (lines 75-87). -/
  | gadNotify (devKnown : Bool) (m : GadMsg)
  /-- The gadget-cook callback removes every entry matching the key of `m`
  (handlers.js lines 277-279). -/
  | gadCookDone (m : GadMsg)
  deriving DecidableEq, Repr

/-- Run `queueEvent` for each of `n` attached listeners in turn. -/
def iterQE : Nat → List GadMsg → GadMsg → List GadMsg
  | 0, q, _ => q
  | n + 1, q, m => queueEvent (iterQE n q m) m

/-- One transition of the coalescing-queue state. -/
def qstep (s : QState) : QStep → QState
  | .devStart => { s with listeners := s.listeners + 1 }
  | .devDone removed =>
      if removed then { s with listeners := s.listeners - 1 } else s
  | .gadNotify devKnown m =>
      let q0 := if devKnown then s.queue ++ [m] else s.queue
      { s with queue := iterQE s.listeners q0 m }
  | .gadCookDone m =>
      { s with queue := s.queue.filter (fun g => !(sameKey g m)) }

/-- Run a sequence of coalescing-queue transitions. -/
def qrun (s : QState) : List QStep → QState
  | [] => s
  | a :: rest => qrun (qstep s a) rest

/-- A concrete gadget notification used in counterexamples and witnesses. -/
def mEx : GadMsg := { ncName := "zigbee-core", permAddr := "0x1234", auxId := "temperature/0" }

/-! ### Actions, registry entities and the freebird state -/

/-- Observable side effects of a handler, in program order. -/
inductive Action where
  /-- `freebird._fire(evt, data)`: a top-level event; `entId` is the entity id
  carried in the payload when one is present. -/
  | fire (evt : String) (entId : Option Nat)
  /-- `freebird._tweet(subsys, indType, id, data)`: an RPC indication. -/
  | tweet (subsys : String) (indType : String) (entId : Nat)
  /-- `freebird.emit(NcGadIncoming, msg)` inside `releasQueueEvent`
  (handlers.js line 98): a replayed bottom-level gadget notification. -/
  | emitGad (m : GadMsg)
  /-- `freebird.unregister("gadget", gad, cb)` is invoked (line 206). -/
  | unregGad (entId : Nat)
  /-- `freebird.unregister("device", dev, cb)` is invoked (line 189). -/
  | unregDev (entId : Nat)
  /-- `nc.remove(permAddr, cb)`: a netcore-level removal command. -/
  | ncRemove (permAddr : String)
  /-- `setTimeout(fn, ms)`: a retry is scheduled (handlers.js lines 271-273). -/
  | setTimeoutMs (ms : Nat)
  deriving DecidableEq, Repr

/-- Top-level event name constants.  The values live in the external
freebird-constants package; only their identity matters here, so each is a
distinct string. -/
def DEV_INCOMING : String := "devIncoming"

def DEV_LEAVING : String := "devLeaving"

def GAD_INCOMING : String := "gadIncoming"

def GAD_LEAVING : String := "gadLeaving"

def DEV_NET_CHANGED : String := "devNetChanged"

def DEV_STATUS_CHANGED : String := "devStatusChanged"

def DEV_PROPS_CHANGED : String := "devPropsChanged"

def DEV_ATTRS_CHANGED : String := "devAttrsChanged"

def GAD_PANEL_CHANGED : String := "gadPanelChanged"

def GAD_PROPS_CHANGED : String := "gadPropsChanged"

def GAD_ATTRS_CHANGED : String := "gadAttrsChanged"

def DEV_BAN_INCOMING : String := "bannedDevIncoming"

def DEV_BAN_REPORTING : String := "bannedDevReporting"

def GAD_BAN_INCOMING : String := "bannedGadIncoming"

def GAD_BAN_REPORTING : String := "bannedGadReporting"

/-- Canonical device record, restricted to the fields the handlers read or
write.  The network-info block (role, parent, maySleep, sleepPeriod, address)
and the raw payload and attribute set are opaque to the handler logic and are
carried as plain strings. -/
structure Device where
  ncName : String
  permAddr : String
  devId : Option Nat
  enabled : Bool
  status : String
  net : String
  raw : String
  attrs : String
  deriving DecidableEq, Repr

/-- Canonical gadget record, restricted to the fields the handlers read or
write.  `name` is props.name, `panelClass` is panel.classId. -/
structure GadgetR where
  ncName : String
  permAddr : String
  auxId : String
  gid : Nat
  enabled : Bool
  name : String
  panelClass : String
  raw : String
  attrs : String
  deriving DecidableEq, Repr

/-- The mutable freebird state touched by the handlers: the two registries,
the coalescing queue and the count of attached `queueEvent` listeners. -/
structure FB where
  devs : List Device
  gads : List GadgetR
  gadEventQueue : List GadMsg
  listeners : Nat
  deriving DecidableEq, Repr

/-- `freebird.findByNet("device", ncName, permAddr)` (freebird.js
lines 111-114): first device whose permAddr and netcore name both match. -/
def findDev (devs : List Device) (ncName permAddr : String) : Option Device :=
  devs.find? (fun d => d.permAddr == permAddr && d.ncName == ncName)

/-- `freebird.findByNet("gadget", ncName, permAddr, auxId)` (freebird.js
lines 115-118). -/
def findGad (gads : List GadgetR) (ncName permAddr auxId : String) : Option GadgetR :=
  gads.find? (fun g => g.permAddr == permAddr && g.auxId == auxId && g.ncName == ncName)

/-! ### ncDevIncoming (handlers.js lines 70-159) -/

/-- Bottom-level device notification `{ ncName, permAddr, raw }`. -/
structure DevMsg where
  ncName : String
  permAddr : String
  raw : String
  deriving DecidableEq, Repr

/-- Outcomes of the external collaborators consulted by `ncDevIncoming`:
whether `findByNet("netcore", ncName)` finds the netcore, the result of the
asynchronous `nc.cookRawDev` callback (the brewed device on success),
`nc.isJoinable()`, and the result of the `freebird.register("device")`
callback (the assigned id on success). -/
structure DevIncomingOracles where
  ncKnown : Bool
  cook : Except String Device
  joinable : Bool
  registerResult : Except String Nat

/-- Modelled from the spec: the registry operation
`register(entity) -> (error, id)` lives in lib/components/registry.js, which
is not under src; per spec section 4.1, on success the registry stores the
new device and assigns it an id.  The handler then enables the device and
marks it online (handlers.js lines 145-147), so the stored record carries
those fields. -/
def registerDeviceEffect (devs : List Device) (brewed : Device) (rid : Nat) : List Device :=
  devs ++ [{ brewed with devId := some rid, enabled := true, status := "online" }]

/-- The `ncDevIncoming` handler (handlers.js lines 70-159), as a state
transformer returning the new freebird state and the ordered action trace.

Source walkthrough: line 89 attaches the `queueEvent` listener (before the
netcore check, so an unknown netcore leaks it); line 103 drops the
notification when the netcore is unknown; line 109 starts the asynchronous
cook whose failure branch (lines 110-114) tweets a net error and returns
without removing the listener; the existing-device branch (lines 118-133)
removes the listener, refreshes raw/extra/net-info/attrs and marks the device
online (the change events those setters raise flow through the separate
device-object pipeline and are not part of this trace); the joinable branch
(lines 134-153) registers the device and on success fires DEV_INCOMING,
tweets devIncoming and replays the matching queued gadget notifications in
original order via `releasQueueEvent` (lines 91-101); the final branch
(lines 154-156) removes the listener and does nothing. -/
def ncDevIncoming (st : FB) (msg : DevMsg) (o : DevIncomingOracles) : FB × List Action :=
  let st1 : FB := { st with listeners := st.listeners + 1 }
  if o.ncKnown = false then
    (st1, [])
  else
    match o.cook with
    | .error _ => (st1, [Action.tweet "net" "error" 0])
    | .ok brewed =>
      match findDev st1.devs msg.ncName msg.permAddr with
      | some _ =>
        let st2 : FB := { st1 with listeners := st1.listeners - 1 }
        let upd : Device → Device := fun d =>
          if d.permAddr == msg.permAddr && d.ncName == msg.ncName then
            { d with
                raw := brewed.raw
                net := brewed.net
                attrs := brewed.attrs
                status := "online" }
          else d
        ({ st2 with devs := st2.devs.map upd }, [])
      | none =>
        if o.joinable then
          match o.registerResult with
          | .error _ =>
            ({ st1 with listeners := st1.listeners - 1 }, [Action.tweet "net" "error" 0])
          | .ok rid =>
            let st2 : FB := { st1 with listeners := st1.listeners - 1,
                                       devs := registerDeviceEffect st1.devs brewed rid }
            let matched := st2.gadEventQueue.filter (devMatch msg.ncName msg.permAddr)
            let rest := st2.gadEventQueue.filter (fun g => !(devMatch msg.ncName msg.permAddr g))
            ({ st2 with gadEventQueue := rest },
             [Action.fire DEV_INCOMING (some rid), Action.tweet "dev" "devIncoming" rid]
               ++ matched.map Action.emitGad)
        else
          ({ st1 with listeners := st1.listeners - 1 }, [])

/-! ### ncDevLeaving (handlers.js lines 161-219) -/

/-- Fixed data and external outcomes of one device-leaving cascade: the
notification fields, the id of the leaving device, and the outcomes of the
`freebird.unregister` callbacks (an error message, or `none` for success). -/
structure LeavingEnv where
  ncName : String
  permAddr : String
  devId : Nat
  unregGadErr : Nat → Option String
  unregDevErr : Option String

/-- Trace of one gadget unregistration attempt (handlers.js lines 203-216):
the `unregister` call, then either the GAD_LEAVING fire and gadLeaving tweet
on success, or the warn fire and gad error tweet on failure. -/
def unregGadActions (env : LeavingEnv) (g : GadgetR) : List Action :=
  Action.unregGad g.gid ::
    (match env.unregGadErr g.gid with
     | none => [Action.fire GAD_LEAVING (some g.gid), Action.tweet "gad" "gadLeaving" g.gid]
     | some _ => [Action.fire "warn" none, Action.tweet "gad" "error" g.gid])

/-- Loop body of `removeGadget` (handlers.js lines 184-218).  The source pops
entries from the END of `gadTbl` (Array.prototype.pop, line 199) until the
table is empty, so the loop is the structural recursion over the reversed
table; a `none` entry (a stale gadId that `findById` did not resolve,
lines 200-201) is skipped without an unregister attempt; when the table is
exhausted the device itself is unregistered (lines 187-197). -/
def removeGadgetLoop (env : LeavingEnv) : List (Option GadgetR) → List Action
  | [] =>
      Action.unregDev env.devId ::
        (match env.unregDevErr with
         | none => [Action.fire DEV_LEAVING (some env.devId),
                    Action.tweet "dev" "devLeaving" env.devId]
         | some _ => [Action.fire "warn" none, Action.tweet "dev" "error" env.devId])
  | none :: rest => removeGadgetLoop env rest
  | some g :: rest => unregGadActions env g ++ removeGadgetLoop env rest

/-- The `removeGadget` cascade started at handlers.js line 181: gadgets are
popped from the end of the table, hence the reversal. -/
def removeGadget (env : LeavingEnv) (gadTbl : List (Option GadgetR)) : List Action :=
  removeGadgetLoop env gadTbl.reverse

/-- The `ncDevLeaving` handler (handlers.js lines 161-219), reduced to its
action trace.  `devFound` is the `findByNet("device")` outcome (line 164;
unknown device drops the notification, lines 169-170) and `removing` is the
`dev._removing` flag (line 176).  The offline status update of line 174 flows
through the device-object change pipeline and is not part of this trace.
`gadTbl` is the mapped gadget table of lines 177-179. -/
def ncDevLeaving (devFound removing : Bool) (env : LeavingEnv)
    (gadTbl : List (Option GadgetR)) : List Action :=
  if devFound = false then []
  else if removing then removeGadget env gadTbl
  else []

/-- Recognizes any unregister attempt in a trace. -/
def isUnregAttempt : Action → Bool
  | .unregGad _ => true
  | .unregDev _ => true
  | _ => false

/-- Recognizes a gadget unregister attempt in a trace. -/
def isGadUnreg : Action → Bool
  | .unregGad _ => true
  | _ => false

/-! ### Event dispatcher and delivery modes (freebird.js lines 165-231) -/

/-- A buffered top-level event `{ name, msg }` (freebird.js line 175). -/
structure Evt where
  name : String
  msg : String
  deriving DecidableEq, Repr

/-- Dispatcher state.  `fireIsLazy` tells whether `this._fire` is currently
`_lazyFire` (buffered) or `_normalFire` (immediate); `draining` tells whether
a `keepReleasing` callback is scheduled (freebird.js lines 212, 226); `queue`
is `_eventQueue`; `delivered` is the ordered log of events actually emitted
to subscribers. -/
structure Disp where
  fireIsLazy : Bool
  draining : Bool
  queue : List Evt
  delivered : List Evt
  deriving DecidableEq, Repr

/-- One `this._fire(evt, data)` call: `_lazyFire` (freebird.js lines 174-176)
appends to `_eventQueue`; `_normalFire` (lines 165-172) emits on a scheduled
tick, recorded here as an appended delivery. -/
def fireStep (s : Disp) (e : Evt) : Disp :=
  if s.fireIsLazy then { s with queue := s.queue ++ [e] }
  else { s with delivered := s.delivered ++ [e] }

/-- One scheduled `keepReleasing` tick (freebird.js lines 220-230): while the
queue is nonempty, shift the oldest entry, emit it and reschedule; on an
empty queue switch `_fire` back to `_normalFire` and stop.  A tick with no
drain scheduled changes nothing. -/
def keepReleasingTick (s : Disp) : Disp :=
  if s.draining then
    match s.queue with
    | [] => { s with draining := false, fireIsLazy := false }
    | e :: rest => { s with queue := rest, delivered := s.delivered ++ [e] }
  else s

/-- `Freebird.prototype._changeFireMode` (freebird.js lines 207-231): on a
switch to immediate with a nonempty queue, schedule `keepReleasing` (leaving
`_fire` lazy until the drain finishes); with an empty queue switch `_fire`
immediately; a switch to lazy just swaps `_fire`. -/
def changeFireMode (s : Disp) (mode : Bool) : Disp :=
  if mode then
    if s.queue ≠ [] then { s with draining := true }
    else { s with fireIsLazy := false }
  else { s with fireIsLazy := true }

/-- Interleavable dispatcher occurrences after a mode switch: a `_fire` call
or a scheduler tick running a pending `keepReleasing`. -/
inductive DStep where
  | fire (e : Evt)
  | tick
  deriving DecidableEq, Repr

/-- Apply one dispatcher occurrence. -/
def dstep (s : Disp) : DStep → Disp
  | .fire e => fireStep s e
  | .tick => keepReleasingTick s

/-- Run a sequence of dispatcher occurrences. -/
def drun (s : Disp) : List DStep → Disp
  | [] => s
  | a :: rest => drun (dstep s a) rest

/-- The events fired (in order) within a sequence of occurrences. -/
def firedOf : List DStep → List Evt
  | [] => []
  | .fire e :: rest => e :: firedOf rest
  | .tick :: rest => firedOf rest

/-! ### ncGadIncoming and doGadCook (handlers.js lines 246-319) -/

/-- Outcomes of the external collaborators consulted by `ncGadIncoming`:
whether the netcore is found, the readiness of the owning device id at each
retry (`idReady k` is the value of `!_.isNil(dev.get("id"))` observed at the
check where `syncTimes` holds `k`), the asynchronous `nc.cookRawGad` outcome,
`nc.isJoinable()`, and the `freebird.register("gadget")` outcome. -/
structure GadCookOracles where
  ncKnown : Bool
  idReady : Nat → Bool
  cook : Except String GadgetR
  joinable : Bool
  registerResult : Except String Nat

/-- Modelled from the spec: `register(entity) -> (error, id)` for gadgets
(lib/components/registry.js is not under src); per spec section 4.1 the
registry stores the gadget and assigns an id; the handler then enables it and
defaults props.name from panel.classId when still the placeholder
(handlers.js lines 305-308). -/
def registerGadgetEffect (gads : List GadgetR) (brewed : GadgetR) (rid : Nat) : List GadgetR :=
  gads ++ [{ brewed with
              gid := rid
              enabled := true
              name := if brewed.name == "unknown" then brewed.panelClass else brewed.name }]

/-- The `doGadCook` closure (handlers.js lines 265-316).  While the owning
device has no id yet, `syncTimes` is incremented; past 50 the notification is
silently discarded (lines 268-269), otherwise a 20 ms retry is scheduled
(lines 271-273).  Once the id is ready, `nc.cookRawGad` runs — dereferencing
an absent netcore throws — and its callback first removes this key from the
coalescing queue (lines 277-279), then either tweets a net error (cook
failure, lines 281-285), refreshes an existing gadget (lines 289-296),
registers a new gadget when joining is permitted (lines 298-313), or does
nothing.  Result: new state, action trace, and a synchronously escaping
exception if one is thrown. -/
def doGadCook (st : FB) (msg : GadMsg) (gadFound : Option GadgetR) (o : GadCookOracles)
    (syncTimes : Nat) : FB × List Action × Option String :=
  if o.idReady syncTimes = false then
    if _h : syncTimes + 1 > 50 then
      (st, [], none)
    else
      let r := doGadCook st msg gadFound o (syncTimes + 1)
      (r.1, Action.setTimeoutMs 20 :: r.2.1, r.2.2)
  else if o.ncKnown = false then
    (st, [], some "TypeError: cannot call cookRawGad of undefined netcore")
  else
    let st1 : FB := { st with gadEventQueue := st.gadEventQueue.filter (fun g => !(sameKey g msg)) }
    match o.cook with
    | .error _ => (st1, [Action.tweet "net" "error" 0], none)
    | .ok brewed =>
      match gadFound with
      | some g =>
        let upd : GadgetR → GadgetR := fun gg =>
          if gg.gid == g.gid then
            { gg with
                raw := brewed.raw
                panelClass := brewed.panelClass
                attrs := brewed.attrs
                name := if gg.name == "unknown" then brewed.panelClass else gg.name }
          else gg
        ({ st1 with gads := st1.gads.map upd }, [], none)
      | none =>
        if o.joinable then
          match o.registerResult with
          | .error _ =>
            (st1, [Action.fire "warn" none, Action.tweet "gad" "error" 0], none)
          | .ok rid =>
            ({ st1 with gads := registerGadgetEffect st1.gads brewed rid },
             [Action.fire GAD_INCOMING (some rid), Action.tweet "gad" "gadIncoming" rid], none)
        else
          (st1, [], none)
  termination_by 51 - syncTimes
  decreasing_by omega

/-- The `ncGadIncoming` handler (handlers.js lines 246-319): drop when the
owning device is unknown (lines 256-257); otherwise push the notification
onto the coalescing queue (line 259), mark the device online (lines 260-261;
modelled directly on the registry record), look up the gadget (line 251) and
start `doGadCook` with `syncTimes = 0`. -/
def ncGadIncoming (st : FB) (msg : GadMsg) (o : GadCookOracles) :
    FB × List Action × Option String :=
  match findDev st.devs msg.ncName msg.permAddr with
  | none => (st, [], none)
  | some _ =>
    let st1 : FB := { st with gadEventQueue := st.gadEventQueue ++ [msg] }
    let st2 : FB := { st1 with devs := st1.devs.map (fun d =>
      if d.permAddr == msg.permAddr && d.ncName == msg.ncName then
        { d with status := "online" }
      else d) }
    let gadFound := findGad st2.gads msg.ncName msg.permAddr msg.auxId
    doGadCook st2 msg gadFound o 0

/-! ### updateComponent (handlers.js lines 558-585) -/

/-- The message handed to `updateComponent`:
`{ ncName, permAddr, id, data: delta }`.  Only the `status` field of the
delta is inspected by the handler, so the rest of the delta stays opaque.
`deltaStatus = none` models an absent status field and `some s` a present
one (JavaScript truthiness makes the empty string count as absent). -/
structure UpdateMsg where
  ncName : String
  permAddr : String
  entId : Nat
  deltaStatus : Option String
  deriving DecidableEq, Repr

/-- JavaScript truthiness of an optional string field. -/
def jsTruthy : Option String → Bool
  | none => false
  | some s => !(s == "")

/-- `getUpdateEventName` (handlers.js lines 617-637); an unmatched pair
yields the undefined event name, modelled as the empty string. -/
def getUpdateEventName (type ns : String) : String :=
  if type == "dev" then
    if ns == "net" then DEV_NET_CHANGED
    else if ns == "props" then DEV_PROPS_CHANGED
    else if ns == "attrs" then DEV_ATTRS_CHANGED
    else ""
  else if type == "gad" then
    if ns == "panel" then GAD_PANEL_CHANGED
    else if ns == "props" then GAD_PROPS_CHANGED
    else if ns == "attrs" then GAD_ATTRS_CHANGED
    else ""
  else ""

/-- The `updateComponent` pipeline (handlers.js lines 558-585), reduced to
its action trace.  `modifyErr` is the outcome of the `box.modify` callback.
On failure: warn fire plus error tweet.  On success: the namespace event fire
and the namespaceChanged tweet, followed — exactly when the event is
DEV_NET_CHANGED and the delta has a truthy `status` — by the derived
DEV_STATUS_CHANGED fire and statusChanged tweet with the same id
(lines 575-579). -/
def updateComponent (type ns : String) (msg : UpdateMsg) (modifyErr : Option String) :
    List Action :=
  match modifyErr with
  | some _ => [Action.fire "warn" none, Action.tweet type "error" msg.entId]
  | none =>
    let evtName := getUpdateEventName type ns
    [Action.fire evtName (some msg.entId), Action.tweet type (ns ++ "Changed") msg.entId] ++
      (if evtName == DEV_NET_CHANGED && jsTruthy msg.deltaStatus then
        [Action.fire DEV_STATUS_CHANGED (some msg.entId),
         Action.tweet "dev" "statusChanged" msg.entId]
      else [])

/-! ### bannedComponent and ncNetBan (handlers.js lines 348-382, 486-556) -/

/-- Banned or net-ban notification fields. -/
structure BanMsg where
  ncName : String
  permAddr : String
  auxId : String
  deriving DecidableEq, Repr

/-- Result of a handler that can throw: final state, action trace in program
order, and the synchronously escaping exception when one is raised. -/
structure HResult where
  st : FB
  actions : List Action
  thrown : Option String
  deriving DecidableEq, Repr

/-- `getBannedEventName` (handlers.js lines 541-556); unmatched pairs give
the undefined name, modelled as the empty string. -/
def getBannedEventName (type indType : String) : String :=
  if type == "device" then
    if indType == "bannedReport" then DEV_BAN_REPORTING
    else if indType == "bannedIncoming" then DEV_BAN_INCOMING
    else ""
  else if type == "gadget" then
    if indType == "bannedReport" then GAD_BAN_REPORTING
    else if indType == "bannedIncoming" then GAD_BAN_INCOMING
    else ""
  else ""

/-- Modelled from the spec: `unregister(entity) -> error?` for gadgets
(lib/components/registry.js is not under src); per spec section 6 a
successful unregister removes the entity from the registry. -/
def unregisterGadgetEffect (gads : List GadgetR) (gid : Nat) : List GadgetR :=
  gads.filter (fun g => !(g.gid == gid))

/-- The `bannedComponent` helper (handlers.js lines 486-539).  `ncKnown` is
the `findByNet("netcore")` outcome, `removeErr` the `nc.remove` callback
outcome, `unregGadErr` the gadget `unregister` callback outcome.  The device
branch (lines 500-514) always fires the banned event and tweets with the
component id (0 when the device was never registered) and, only when the
device is registered, issues `nc.remove` — dereferencing an absent netcore
throws (line 508).  The gadget branch (lines 515-534) fires and tweets
likewise, then unregisters a registered gadget, firing GAD_LEAVING on success
or warn plus error tweet on failure. -/
def bannedComponent (st : FB) (type indType : String) (msg : BanMsg)
    (ncKnown : Bool) (removeErr : Option String) (unregGadErr : Option String) : HResult :=
  let evtName := getBannedEventName type indType
  if type == "device" then
    let component := findDev st.devs msg.ncName msg.permAddr
    let componentId : Nat := match component with
      | some d => d.devId.getD 0
      | none => 0
    let base := [Action.fire evtName none, Action.tweet "dev" evtName componentId]
    match component with
    | none => { st := st, actions := base, thrown := none }
    | some _ =>
      if ncKnown then
        { st := st,
          actions := base ++ Action.ncRemove msg.permAddr ::
            (match removeErr with
             | some _ => [Action.fire "warn" none, Action.tweet "dev" "error" componentId]
             | none => []),
          thrown := none }
      else
        { st := st, actions := base,
          thrown := some "TypeError: cannot call remove of undefined netcore" }
  else if type == "gadget" then
    let component := findGad st.gads msg.ncName msg.permAddr msg.auxId
    let componentId : Nat := match component with
      | some g => g.gid
      | none => 0
    let base := [Action.fire evtName none, Action.tweet "gad" evtName componentId]
    match component with
    | none => { st := st, actions := base, thrown := none }
    | some g =>
      match unregGadErr with
      | none =>
        { st := { st with gads := unregisterGadgetEffect st.gads g.gid },
          actions := base ++ [Action.unregGad g.gid, Action.fire GAD_LEAVING (some g.gid),
                              Action.tweet "gad" "gadLeaving" g.gid],
          thrown := none }
      | some _ =>
        { st := st,
          actions := base ++ [Action.unregGad g.gid, Action.fire "warn" none,
                              Action.tweet "gad" "error" g.gid],
          thrown := none }
  else
    { st := st, actions := [], thrown := none }

/-- `handlers.ncBannedDevIncoming` (handlers.js lines 348-350). -/
def ncBannedDevIncoming (st : FB) (msg : BanMsg) (ncKnown : Bool)
    (removeErr : Option String) : HResult :=
  bannedComponent st "device" "bannedIncoming" msg ncKnown removeErr none

/-- `handlers.ncNetBan` (handlers.js lines 367-382): when a matching device
exists, `nc.remove(permAddr)` is issued — with no guard on the netcore
lookup, so an absent netcore makes the dereference throw; the remove callback
on failure fires warn and tweets a dev error. -/
def ncNetBan (st : FB) (msg : BanMsg) (ncKnown : Bool) (removeErr : Option String) : HResult :=
  match findDev st.devs msg.ncName msg.permAddr with
  | none => { st := st, actions := [], thrown := none }
  | some d =>
    if ncKnown then
      { st := st,
        actions := Action.ncRemove msg.permAddr ::
          (match removeErr with
           | some _ => [Action.fire "warn" none, Action.tweet "dev" "error" (d.devId.getD 0)]
           | none => []),
        thrown := none }
    else
      { st := st, actions := [],
        thrown := some "TypeError: cannot call remove of undefined netcore" }

/-! ### Trace predicates and concrete example values used by witnesses -/

/-- Recognizes any top-level event fire in a trace. -/
def isFireTop : Action → Bool
  | .fire _ _ => true
  | _ => false

/-- Recognizes any RPC indication in a trace. -/
def isTweet : Action → Bool
  | .tweet _ _ _ => true
  | _ => false

/-- A second gadget notification with a different key. -/
def mOther : GadMsg := { ncName := "ble-core", permAddr := "0x9abc", auxId := "switch/2" }

/-- A registered example device. -/
def devEx : Device :=
  { ncName := "zigbee-core", permAddr := "0x1234", devId := some 1, enabled := true,
    status := "online", net := "netinfo", raw := "raw", attrs := "attrs" }

/-- An example brewed device as returned by a successful cook. -/
def brewedEx : Device :=
  { ncName := "zigbee-core", permAddr := "0x1234", devId := none, enabled := false,
    status := "unknown", net := "netinfo2", raw := "raw2", attrs := "attrs2" }

/-- The empty freebird state. -/
def stEmpty : FB := { devs := [], gads := [], gadEventQueue := [], listeners := 0 }

/-- A state already holding the example device. -/
def stWithDev : FB := { devs := [devEx], gads := [], gadEventQueue := [], listeners := 0 }

/-- A state with two queued gadget notifications and no devices. -/
def stQueue : FB := { devs := [], gads := [], gadEventQueue := [mEx, mOther], listeners := 0 }

/-- The device-incoming notification matching the example device. -/
def msgEx : DevMsg := { ncName := "zigbee-core", permAddr := "0x1234", raw := "raw" }

/-- Oracles for a failing device cook. -/
def oCookFail : DevIncomingOracles :=
  { ncKnown := true, cook := .error "cook failed", joinable := true, registerResult := .ok 1 }

/-- Oracles for a successful device cook with joining permitted. -/
def oCookOk : DevIncomingOracles :=
  { ncKnown := true, cook := .ok brewedEx, joinable := true, registerResult := .ok 7 }

/-- Oracles for a successful device cook with joining denied. -/
def oNotJoin : DevIncomingOracles :=
  { ncKnown := true, cook := .ok brewedEx, joinable := false, registerResult := .ok 7 }

/-- Example gadgets for the leaving cascade. -/
def gadA : GadgetR :=
  { ncName := "zigbee-core", permAddr := "0x1234", auxId := "temperature/0", gid := 5,
    enabled := true, name := "temp", panelClass := "temperature", raw := "rg", attrs := "ag" }

/-- A second example gadget. -/
def gadB : GadgetR :=
  { ncName := "zigbee-core", permAddr := "0x1234", auxId := "humidity/1", gid := 9,
    enabled := true, name := "hum", panelClass := "humidity", raw := "rg2", attrs := "ag2" }

/-- Leaving-cascade environment where unregistering gadget 5 fails. -/
def envEx : LeavingEnv :=
  { ncName := "zigbee-core", permAddr := "0x1234", devId := 1,
    unregGadErr := fun i => if i = 5 then some "unregister failed" else none,
    unregDevErr := none }

/-- Example gadget table with a stale (unresolved) entry in the middle. -/
def tblEx : List (Option GadgetR) := [some gadA, none, some gadB]

/-- Example buffered events. -/
def evA : Evt := { name := "devIncoming", msg := "a" }

/-- Example buffered event. -/
def evB : Evt := { name := "gadIncoming", msg := "b" }

/-- An event fired after the mode switch. -/
def evC : Evt := { name := "devReporting", msg := "c" }

/-- Dispatcher in buffered mode with two buffered events. -/
def dispEx : Disp := { fireIsLazy := true, draining := false, queue := [evA, evB], delivered := [] }

/-- Occurrences after the switch: drain ticks interleaved with one fire. -/
def stepsEx : List DStep := [DStep.tick, DStep.fire evC, DStep.tick, DStep.tick, DStep.tick]

/-- An example brewed gadget. -/
def gadBrewed : GadgetR :=
  { ncName := "zigbee-core", permAddr := "0x1234", auxId := "temperature/0", gid := 0,
    enabled := false, name := "unknown", panelClass := "temperature", raw := "rg3", attrs := "ag3" }

/-- Gadget oracles where the owning device never gets an id. -/
def oGadTimeout : GadCookOracles :=
  { ncKnown := true, idReady := fun _ => false, cook := .ok gadBrewed, joinable := true,
    registerResult := .ok 2 }

/-- Gadget oracles where the device id is ready but the netcore is absent. -/
def oGadNoNc : GadCookOracles :=
  { ncKnown := false, idReady := fun _ => true, cook := .ok gadBrewed, joinable := true,
    registerResult := .ok 2 }

/-- A device owned by netcore "zb" that is registered while "zb" itself is
absent from the netcore list (for example after a restart with a database
written under a different netcore configuration). -/
def devZb : Device :=
  { ncName := "zb", permAddr := "0x01", devId := some 3, enabled := true, status := "online",
    net := "n", raw := "r", attrs := "a" }

/-- State holding `devZb` but no netcores. -/
def stZb : FB := { devs := [devZb], gads := [], gadEventQueue := [], listeners := 0 }

/-- Example update message whose delta changes the status field. -/
def updateMsgEx : UpdateMsg :=
  { ncName := "zigbee-core", permAddr := "0x1234", entId := 3, deltaStatus := some "online" }

/-! ## Theorems -/

/-- Propositional characterization of the queue key predicate. -/
theorem sameKey_iff {a b : GadMsg} :
    sameKey a b = true ↔ a.ncName = b.ncName ∧ a.permAddr = b.permAddr ∧ a.auxId = b.auxId := by
  simp [sameKey, Bool.and_eq_true, and_assoc]

/-- The key predicate holds reflexively. -/
theorem sameKey_refl (a : GadMsg) : sameKey a a = true := by
  simp [sameKey_iff]

/-- C1 counterexample: the claim that the coalescing queue never holds more
than one entry per key fails in a reachable state.  With no queueEvent
listener attached (no device-incoming cook in flight), two NcGadIncoming
emissions for the same key while the first gadget cook is still in flight
both hit the unconditional push of handlers.js line 259, leaving two queued
entries with the same key. -/
theorem gadEventQueue_holds_two_entries_per_key :
    (qrun { queue := [], listeners := 0 }
        [QStep.gadNotify true mEx, QStep.gadNotify true mEx]).queue = [mEx, mEx] ∧
    1 < keyCount (qrun { queue := [], listeners := 0 }
        [QStep.gadNotify true mEx, QStep.gadNotify true mEx]).queue mEx := by
  constructor
  · rfl
  · decide

/-- C1 (amended): the `queueEvent` listener itself implements the
coalesce/cancel rule — enqueuing a notification whose key already has a
queued entry removes every entry with that key instead of appending, an
enqueue for a fresh key appends it, and the listener preserves the
at-most-one-entry-per-key invariant.  (The unconditional push of
`ncGadIncoming`, line 259, is what breaks the invariant in general, as the
counterexample shows.) -/
theorem queueEvent_coalesces (q : List GadMsg) (m : GadMsg) (hq : AtMostOnePerKey q) :
    (q.any (fun g => sameKey g m) = true → keyCount (queueEvent q m) m = 0) ∧
    (q.any (fun g => sameKey g m) = false → queueEvent q m = q ++ [m]) ∧
    AtMostOnePerKey (queueEvent q m) := by
  refine ⟨?_, ?_, ?_⟩
  · intro h
    simp only [queueEvent, h, if_true]
    rw [keyCount, List.countP_eq_zero]
    intro a ha
    have h2 := (List.mem_filter.mp ha).2
    simp only [Bool.not_eq_true'] at h2
    simp [h2]
  · intro h
    simp [queueEvent, h]
  · intro x hx
    by_cases h : q.any (fun g => sameKey g m) = true
    · simp only [queueEvent, h, if_true] at hx ⊢
      have hsub : List.Sublist (q.filter (fun g => !(sameKey g m))) q := List.filter_sublist q
      have hle : keyCount (q.filter (fun g => !(sameKey g m))) x ≤ keyCount q x :=
        List.Sublist.countP_le _ hsub
      have hxq : x ∈ q := (List.mem_filter.mp hx).1
      exact le_trans hle (hq x hxq)
    · have hfalse : q.any (fun g => sameKey g m) = false := by
        cases h2 : q.any (fun g => sameKey g m)
        · rfl
        · exact absurd h2 h
      have hall : ∀ g ∈ q, sameKey g m = false := by
        intro g hg
        cases h2 : sameKey g m
        · rfl
        · exact absurd (List.any_eq_true.mpr ⟨g, hg, h2⟩) h
      simp only [queueEvent, hfalse, Bool.false_eq_true, if_false] at hx ⊢
      rw [keyCount, List.countP_append]
      cases hmx : sameKey m x
      · have hsing : List.countP (fun g => sameKey g x) [m] = 0 := by
          simp [List.countP_cons, hmx]
        rw [hsing]
        rcases List.mem_append.mp hx with hxq | hxm
        · simpa using hq x hxq
        · have hxm2 : x = m := by simpa using hxm
          subst hxm2
          exact absurd (sameKey_refl x) (by simp [hmx])
      · have hq0 : List.countP (fun g => sameKey g x) q = 0 := by
          rw [List.countP_eq_zero]
          intro g hg
          intro hgx
          have h1 := sameKey_iff.mp hgx
          have h2 := sameKey_iff.mp hmx
          have hgm : sameKey g m = true := by
            rw [sameKey_iff]
            exact ⟨h1.1.trans h2.1.symm, h1.2.1.trans h2.2.1.symm, h1.2.2.trans h2.2.2.symm⟩
          rw [hall g hg] at hgm
          exact Bool.false_ne_true hgm
        have hsing : List.countP (fun g => sameKey g x) [m] = 1 := by
          simp [List.countP_cons, hmx]
        rw [hq0, hsing]

/-- C1 amended-claim witness at concrete inputs. -/
theorem queueEvent_coalesces_witness :
    keyCount (queueEvent [mEx] mEx) mEx = 0 ∧
    queueEvent [mOther] mEx = [mOther] ++ [mEx] ∧
    AtMostOnePerKey (queueEvent [mEx] mEx) :=
  ⟨(queueEvent_coalesces [mEx] mEx (by unfold AtMostOnePerKey keyCount; decide)).1 (by decide),
   (queueEvent_coalesces [mOther] mEx (by unfold AtMostOnePerKey keyCount; decide)).2.1 (by decide),
   (queueEvent_coalesces [mEx] mEx (by unfold AtMostOnePerKey keyCount; decide)).2.2⟩

/-- Unregister attempts produced by the cascade loop: one per resolved gadget
entry, in traversal order, then exactly one device unregister. -/
theorem removeGadgetLoop_unreg_attempts (env : LeavingEnv) (l : List (Option GadgetR)) :
    (removeGadgetLoop env l).filter isUnregAttempt
      = (l.filterMap (fun x => x)).map (fun g => Action.unregGad g.gid)
          ++ [Action.unregDev env.devId] := by
  induction l with
  | nil =>
    cases henv : env.unregDevErr <;>
      simp [removeGadgetLoop, henv, isUnregAttempt]
  | cons a rest ih =>
    cases a with
    | none => simpa [removeGadgetLoop] using ih
    | some g =>
      cases henv : env.unregGadErr g.gid <;>
        simp [removeGadgetLoop, unregGadActions, henv, isUnregAttempt, List.filter_append, ih]

/-- Gadget unregister attempts of the cascade loop, counted. -/
theorem removeGadgetLoop_gad_count (env : LeavingEnv) (l : List (Option GadgetR)) :
    ((removeGadgetLoop env l).filter isGadUnreg).length = (l.filterMap (fun x => x)).length := by
  induction l with
  | nil =>
    cases henv : env.unregDevErr <;>
      simp [removeGadgetLoop, henv, isGadUnreg]
  | cons a rest ih =>
    cases a with
    | none => simpa [removeGadgetLoop] using ih
    | some g =>
      cases henv : env.unregGadErr g.gid <;>
        simp [removeGadgetLoop, unregGadActions, henv, isGadUnreg, List.filter_append, ih]

/-- A failed gadget unregister leaves a warn fire and a gad error tweet in
the cascade trace. -/
theorem removeGadgetLoop_warns (env : LeavingEnv) (l : List (Option GadgetR)) (g : GadgetR)
    (hg : some g ∈ l) (herr : (env.unregGadErr g.gid).isSome = true) :
    Action.fire "warn" none ∈ removeGadgetLoop env l ∧
    Action.tweet "gad" "error" g.gid ∈ removeGadgetLoop env l := by
  induction l with
  | nil => cases hg
  | cons a rest ih =>
    rcases List.mem_cons.mp hg with h | h
    · subst h
      cases henv : env.unregGadErr g.gid with
      | none => rw [henv] at herr; cases herr
      | some e =>
        constructor <;>
          simp [removeGadgetLoop, unregGadActions, henv]
    · have h2 := ih h
      cases a with
      | none => simpa [removeGadgetLoop] using h2
      | some g2 =>
        constructor <;>
          simp [removeGadgetLoop, unregGadActions, h2.1, h2.2]

/-- C2 (confirmed): a device-leaving notification for a known device whose
being-removed flag is set and whose mapped gadget table resolves N gadgets
performs exactly N gadget-unregister attempts followed by exactly one
device-unregister attempt, in that order (the table is popped from its end,
hence the reversal); a failing gadget unregister contributes a warn fire and
a gad error tweet but the cascade still reaches every remaining gadget and
the device, for every outcome oracle. -/
theorem ncDevLeaving_cascade (env : LeavingEnv) (gadTbl : List (Option GadgetR)) :
    (ncDevLeaving true true env gadTbl).filter isUnregAttempt
      = (gadTbl.reverse.filterMap (fun x => x)).map (fun g => Action.unregGad g.gid)
          ++ [Action.unregDev env.devId] ∧
    ((ncDevLeaving true true env gadTbl).filter isGadUnreg).length
      = (gadTbl.filterMap (fun x => x)).length ∧
    (∀ g : GadgetR, some g ∈ gadTbl → (env.unregGadErr g.gid).isSome = true →
      Action.fire "warn" none ∈ ncDevLeaving true true env gadTbl ∧
      Action.tweet "gad" "error" g.gid ∈ ncDevLeaving true true env gadTbl) := by
  have htr : ncDevLeaving true true env gadTbl = removeGadgetLoop env gadTbl.reverse := by
    simp [ncDevLeaving, removeGadget]
  refine ⟨?_, ?_, ?_⟩
  · rw [htr]
    exact removeGadgetLoop_unreg_attempts env gadTbl.reverse
  · rw [htr, removeGadgetLoop_gad_count env gadTbl.reverse]
    rw [List.filterMap_reverse, List.length_reverse]
  · intro g hg herr
    rw [htr]
    exact removeGadgetLoop_warns env gadTbl.reverse g (List.mem_reverse.mpr hg) herr

/-- C2 witness at a concrete table with one failing gadget and one stale
entry. -/
theorem ncDevLeaving_cascade_witness :
    ((ncDevLeaving true true envEx tblEx).filter isUnregAttempt
      = (tblEx.reverse.filterMap (fun x => x)).map (fun g => Action.unregGad g.gid)
          ++ [Action.unregDev envEx.devId]) ∧
    ((ncDevLeaving true true envEx tblEx).filter isGadUnreg).length
      = (tblEx.filterMap (fun x => x)).length ∧
    Action.fire "warn" none ∈ ncDevLeaving true true envEx tblEx ∧
    Action.tweet "gad" "error" gadA.gid ∈ ncDevLeaving true true envEx tblEx := by
  have h := ncDevLeaving_cascade envEx tblEx
  have hw := h.2.2 gadA (by decide) (by decide)
  exact ⟨h.1, h.2.1, hw.1, hw.2⟩

/-- Master dispatcher invariant: over any interleaving of fires and ticks,
the delivered log followed by the still-queued entries equals the original
delivered log, then the original queue, then the events fired since — i.e.
deliveries are FIFO and new fires never bypass queued entries.  Requires the
source invariant that in immediate mode the queue is empty, which every step
preserves. -/
theorem drun_fifo (steps : List DStep) (s : Disp)
    (hInv : s.fireIsLazy = false → s.queue = []) :
    ((drun s steps).delivered ++ (drun s steps).queue
        = s.delivered ++ s.queue ++ firedOf steps) ∧
    ((drun s steps).fireIsLazy = false → (drun s steps).queue = []) := by
  induction steps generalizing s with
  | nil => exact ⟨by simp [drun, firedOf], hInv⟩
  | cons a rest ih =>
    cases a with
    | fire e =>
      cases hl : s.fireIsLazy with
      | true =>
        have h2 := ih (s := { s with queue := s.queue ++ [e] }) (by simp [hl])
        refine ⟨?_, ?_⟩
        · have := h2.1
          simp only [drun, dstep, fireStep, hl, if_true] at this ⊢
          rw [this]
          simp [firedOf]
        · have := h2.2
          simpa only [drun, dstep, fireStep, hl, if_true] using this
      | false =>
        have hq : s.queue = [] := hInv hl
        have h2 := ih (s := { s with delivered := s.delivered ++ [e] }) (by simp [hl, hq])
        refine ⟨?_, ?_⟩
        · have := h2.1
          simp only [drun, dstep, fireStep, hl, Bool.false_eq_true, if_false] at this ⊢
          rw [this]
          simp [firedOf, hq]
        · have := h2.2
          simpa only [drun, dstep, fireStep, hl, Bool.false_eq_true, if_false] using this
    | tick =>
      cases hd : s.draining with
      | false =>
        have h2 := ih (s := s) hInv
        refine ⟨?_, ?_⟩
        · have := h2.1
          simp only [drun, dstep, keepReleasingTick, hd, Bool.false_eq_true, if_false] at this ⊢
          rw [this]
          simp [firedOf]
        · have := h2.2
          simpa only [drun, dstep, keepReleasingTick, hd, Bool.false_eq_true, if_false] using this
      | true =>
        cases hq : s.queue with
        | nil =>
          have h2 := ih (s := { s with draining := false, fireIsLazy := false }) (by simp [hq])
          refine ⟨?_, ?_⟩
          · have := h2.1
            simp only [drun, dstep, keepReleasingTick, hd, hq, if_true] at this ⊢
            rw [this]
            simp [firedOf, hq]
          · have := h2.2
            simpa only [drun, dstep, keepReleasingTick, hd, hq, if_true] using this
        | cons e rest2 =>
          have h2 := ih (s := { s with queue := rest2, delivered := s.delivered ++ [e] })
            (by
              intro hf
              simp only at hf
              have := hInv hf
              rw [hq] at this
              cases this)
          refine ⟨?_, ?_⟩
          · have := h2.1
            simp only [drun, dstep, keepReleasingTick, hd, hq, if_true] at this ⊢
            rw [this]
            simp [firedOf]
          · have := h2.2
            simpa only [drun, dstep, keepReleasingTick, hd, hq, if_true] using this

/-- Mode flag invariant: once no drain is pending, `_fire` is `_normalFire`;
preserved by every fire and tick. -/
theorem drun_mode (steps : List DStep) (s : Disp)
    (hP : s.draining = false → s.fireIsLazy = false) :
    (drun s steps).draining = false → (drun s steps).fireIsLazy = false := by
  induction steps generalizing s with
  | nil => exact hP
  | cons a rest ih =>
    cases a with
    | fire e =>
      cases hl : s.fireIsLazy with
      | true =>
        have h2 := ih (s := { s with queue := s.queue ++ [e] }) hP
        simpa [drun, dstep, fireStep, hl] using h2
      | false =>
        have h2 := ih (s := { s with delivered := s.delivered ++ [e] }) hP
        simpa [drun, dstep, fireStep, hl] using h2
    | tick =>
      cases hd : s.draining with
      | false =>
        have h2 := ih (s := s) hP
        simpa [drun, dstep, keepReleasingTick, hd] using h2
      | true =>
        cases hq : s.queue with
        | nil =>
          have h2 := ih (s := { s with draining := false, fireIsLazy := false })
            (fun _ => rfl)
          simpa [drun, dstep, keepReleasingTick, hd, hq] using h2
        | cons e rest2 =>
          have h2 := ih (s := { s with queue := rest2, delivered := s.delivered ++ [e] })
            (by
              intro hdf
              have hdf2 : s.draining = false := hdf
              rw [hd] at hdf2
              exact Bool.noConfusion hdf2)
          simpa [drun, dstep, keepReleasingTick, hd, hq] using h2

/-- C3 (confirmed): switching the delivery mode from buffered to immediate
drains the buffer first — the delivered log extends in FIFO order by the
previously buffered entries and only then by the events fired after the
switch, one queue entry per scheduling tick; whenever the queue has fully
drained the delivered log is exactly the old log, then the old buffer, then
the post-switch fires; and once the drain machinery stops the dispatcher is
in immediate mode. -/
theorem changeFireMode_drain_fifo (s : Disp) (steps : List DStep)
    (hlazy : s.fireIsLazy = true) :
    ((drun (changeFireMode s true) steps).delivered ++ (drun (changeFireMode s true) steps).queue
        = s.delivered ++ s.queue ++ firedOf steps) ∧
    ((drun (changeFireMode s true) steps).queue = [] →
      (drun (changeFireMode s true) steps).delivered = s.delivered ++ s.queue ++ firedOf steps) ∧
    ((drun (changeFireMode s true) steps).draining = false →
      (drun (changeFireMode s true) steps).fireIsLazy = false) := by
  have hInv : (changeFireMode s true).fireIsLazy = false → (changeFireMode s true).queue = [] := by
    by_cases hq : s.queue = [] <;> simp [changeFireMode, hq, hlazy]
  have hP : (changeFireMode s true).draining = false → (changeFireMode s true).fireIsLazy = false := by
    by_cases hq : s.queue = [] <;> simp [changeFireMode, hq, hlazy]
  have hsame : (changeFireMode s true).delivered = s.delivered ∧
      (changeFireMode s true).queue = s.queue := by
    by_cases hq : s.queue = [] <;> simp [changeFireMode, hq]
  have hfifo := drun_fifo steps (changeFireMode s true) hInv
  have hmode := drun_mode steps (changeFireMode s true) hP
  have heq : (drun (changeFireMode s true) steps).delivered
      ++ (drun (changeFireMode s true) steps).queue
      = s.delivered ++ s.queue ++ firedOf steps := by
    rw [hfifo.1, hsame.1, hsame.2]
  refine ⟨heq, ?_, hmode⟩
  intro hqnil
  rw [hqnil, List.append_nil] at heq
  exact heq

/-- C3 witness: two buffered events, a fire during the drain, enough ticks to
finish. -/
theorem changeFireMode_drain_fifo_witness :
    ((drun (changeFireMode dispEx true) stepsEx).delivered
        ++ (drun (changeFireMode dispEx true) stepsEx).queue
        = dispEx.delivered ++ dispEx.queue ++ firedOf stepsEx) ∧
    ((drun (changeFireMode dispEx true) stepsEx).queue = [] →
      (drun (changeFireMode dispEx true) stepsEx).delivered
        = dispEx.delivered ++ dispEx.queue ++ firedOf stepsEx) ∧
    ((drun (changeFireMode dispEx true) stepsEx).draining = false →
      (drun (changeFireMode dispEx true) stepsEx).fireIsLazy = false) :=
  changeFireMode_drain_fifo dispEx stepsEx (by decide)

/-- C4 (confirmed): a device-incoming notification naming a known netcore
and an unknown (ncName, permAddr) pair, with joining permitted and a
successful cook and registration, adds exactly one device to the registry
(enabled and online), leaves the gadget registry untouched, produces exactly
one DEV_INCOMING fire and exactly one devIncoming indication, and replays
every queued gadget notification matching the (ncName, permAddr) pair in
original order, removing them from the queue. -/
theorem ncDevIncoming_new_device (st : FB) (msg : DevMsg) (o : DevIncomingOracles)
    (brewed : Device) (rid : Nat)
    (hnc : o.ncKnown = true)
    (hdev : findDev st.devs msg.ncName msg.permAddr = none)
    (hcook : o.cook = Except.ok brewed)
    (hjoin : o.joinable = true)
    (hreg : o.registerResult = Except.ok rid) :
    (ncDevIncoming st msg o).1.devs
        = st.devs ++ [{ brewed with devId := some rid, enabled := true, status := "online" }] ∧
    (ncDevIncoming st msg o).1.gads = st.gads ∧
    (ncDevIncoming st msg o).2
        = [Action.fire DEV_INCOMING (some rid), Action.tweet "dev" "devIncoming" rid]
            ++ (st.gadEventQueue.filter (devMatch msg.ncName msg.permAddr)).map Action.emitGad ∧
    (ncDevIncoming st msg o).1.gadEventQueue
        = st.gadEventQueue.filter (fun g => !(devMatch msg.ncName msg.permAddr g)) ∧
    ((ncDevIncoming st msg o).2.countP isFireTop = 1 ∧
      (ncDevIncoming st msg o).2.countP isTweet = 1) := by
  have hrun : ncDevIncoming st msg o
      = ({ st with listeners := st.listeners + 1 - 1,
                   devs := registerDeviceEffect st.devs brewed rid,
                   gadEventQueue :=
                     st.gadEventQueue.filter (fun g => !(devMatch msg.ncName msg.permAddr g)) },
         [Action.fire DEV_INCOMING (some rid), Action.tweet "dev" "devIncoming" rid]
           ++ (st.gadEventQueue.filter (devMatch msg.ncName msg.permAddr)).map Action.emitGad) := by
    simp [ncDevIncoming, hnc, hcook, hdev, hjoin, hreg]
  refine ⟨?_, ?_, ?_, ?_, ?_, ?_⟩
  · rw [hrun]; rfl
  · rw [hrun]
  · rw [hrun]
  · rw [hrun]
  · rw [hrun]
    simp [List.countP_append, List.countP_map, List.countP_cons, isFireTop, isTweet,
      Function.comp, List.countP_eq_zero]
  · rw [hrun]
    simp [List.countP_append, List.countP_map, List.countP_cons, isFireTop, isTweet,
      Function.comp, List.countP_eq_zero]

/-- C4 witness: concrete run over a queue holding one matching and one
non-matching gadget notification. -/
theorem ncDevIncoming_new_device_witness :
    (ncDevIncoming stQueue msgEx oCookOk).1.devs
        = stQueue.devs ++ [{ brewedEx with devId := some 7, enabled := true, status := "online" }] ∧
    (ncDevIncoming stQueue msgEx oCookOk).1.gads = stQueue.gads ∧
    (ncDevIncoming stQueue msgEx oCookOk).2
        = [Action.fire DEV_INCOMING (some 7), Action.tweet "dev" "devIncoming" 7]
            ++ (stQueue.gadEventQueue.filter (devMatch msgEx.ncName msgEx.permAddr)).map
                Action.emitGad ∧
    (ncDevIncoming stQueue msgEx oCookOk).1.gadEventQueue
        = stQueue.gadEventQueue.filter (fun g => !(devMatch msgEx.ncName msgEx.permAddr g)) ∧
    ((ncDevIncoming stQueue msgEx oCookOk).2.countP isFireTop = 1 ∧
      (ncDevIncoming stQueue msgEx oCookOk).2.countP isTweet = 1) :=
  ncDevIncoming_new_device stQueue msgEx oCookOk brewedEx 7 rfl (by decide) rfl rfl rfl

/-- C9 (confirmed): a device-incoming notification naming a known netcore
and an unknown (ncName, permAddr) pair, whose cook succeeds while joining is
not permitted, changes nothing: the returned state equals the input state
(device registry, gadget registry, coalescing queue and listener count all
unchanged) and the trace is empty — no top-level event and no indication. -/
theorem ncDevIncoming_not_joinable (st : FB) (msg : DevMsg) (o : DevIncomingOracles)
    (brewed : Device)
    (hnc : o.ncKnown = true)
    (hdev : findDev st.devs msg.ncName msg.permAddr = none)
    (hcook : o.cook = Except.ok brewed)
    (hjoin : o.joinable = false) :
    ncDevIncoming st msg o = (st, []) := by
  simp [ncDevIncoming, hnc, hcook, hdev, hjoin]

/-- C9 witness at a concrete state. -/
theorem ncDevIncoming_not_joinable_witness :
    ncDevIncoming stQueue msgEx oNotJoin = (stQueue, []) :=
  ncDevIncoming_not_joinable stQueue msgEx oNotJoin brewedEx rfl (by decide) rfl rfl

/-- C10 (confirmed, implicit): the `queueEvent` listener attached at the
start of `ncDevIncoming` is removed on the enumerated non-error completion
paths — device already exists, registration callback completes (either
outcome), joining not permitted — but a device-cook failure returns without
removing it, so the listener count grows by one and stays; in the leaked
state every subsequent NcGadIncoming emission (any key, device known or not)
runs the coalesce/cancel `queueEvent` rule one extra time on top of the
processing the previous listener count would have done. -/
theorem ncDevIncoming_listener_leak
    (st1 : FB) (msg1 : DevMsg) (o1 : DevIncomingOracles) (e1 : String)
    (h1nc : o1.ncKnown = true) (h1c : o1.cook = Except.error e1)
    (st2 : FB) (msg2 : DevMsg) (o2 : DevIncomingOracles) (b2 d2 : Device)
    (h2nc : o2.ncKnown = true) (h2c : o2.cook = Except.ok b2)
    (h2d : findDev st2.devs msg2.ncName msg2.permAddr = some d2)
    (st3 : FB) (msg3 : DevMsg) (o3 : DevIncomingOracles) (b3 : Device)
    (h3nc : o3.ncKnown = true) (h3c : o3.cook = Except.ok b3)
    (h3d : findDev st3.devs msg3.ncName msg3.permAddr = none) (h3j : o3.joinable = true)
    (st4 : FB) (msg4 : DevMsg) (o4 : DevIncomingOracles) (b4 : Device)
    (h4nc : o4.ncKnown = true) (h4c : o4.cook = Except.ok b4)
    (h4d : findDev st4.devs msg4.ncName msg4.permAddr = none) (h4j : o4.joinable = false) :
    (ncDevIncoming st1 msg1 o1).1.listeners = st1.listeners + 1 ∧
    (ncDevIncoming st2 msg2 o2).1.listeners = st2.listeners ∧
    (ncDevIncoming st3 msg3 o3).1.listeners = st3.listeners ∧
    (ncDevIncoming st4 msg4 o4).1.listeners = st4.listeners ∧
    (∀ (q : List GadMsg) (dk : Bool) (m : GadMsg),
      (qstep { queue := q, listeners := (ncDevIncoming st1 msg1 o1).1.listeners }
          (QStep.gadNotify dk m)).queue
        = queueEvent ((qstep { queue := q, listeners := st1.listeners }
            (QStep.gadNotify dk m)).queue) m) := by
  have hL1 : (ncDevIncoming st1 msg1 o1).1.listeners = st1.listeners + 1 := by
    simp [ncDevIncoming, h1nc, h1c]
  refine ⟨hL1, ?_, ?_, ?_, ?_⟩
  · simp [ncDevIncoming, h2nc, h2c, h2d]
  · cases hr : o3.registerResult with
    | error e => simp [ncDevIncoming, h3nc, h3c, h3d, h3j, hr]
    | ok rid => simp [ncDevIncoming, h3nc, h3c, h3d, h3j, hr]
  · simp [ncDevIncoming, h4nc, h4c, h4d, h4j]
  · intro q dk m
    rw [hL1]
    simp [qstep, iterQE]

/-- C10 witness: concrete runs of each completion path plus the extra
coalesce application in the leaked state. -/
theorem ncDevIncoming_listener_leak_witness :
    (ncDevIncoming stEmpty msgEx oCookFail).1.listeners = stEmpty.listeners + 1 ∧
    (ncDevIncoming stWithDev msgEx oCookOk).1.listeners = stWithDev.listeners ∧
    (ncDevIncoming stEmpty msgEx oCookOk).1.listeners = stEmpty.listeners ∧
    (ncDevIncoming stEmpty msgEx oNotJoin).1.listeners = stEmpty.listeners ∧
    (qstep { queue := [], listeners := (ncDevIncoming stEmpty msgEx oCookFail).1.listeners }
        (QStep.gadNotify true mEx)).queue
      = queueEvent ((qstep { queue := [], listeners := stEmpty.listeners }
          (QStep.gadNotify true mEx)).queue) mEx := by
  have h := ncDevIncoming_listener_leak
    stEmpty msgEx oCookFail "cook failed" rfl rfl
    stWithDev msgEx oCookOk brewedEx devEx rfl rfl (by decide)
    stEmpty msgEx oCookOk brewedEx rfl rfl (by decide) rfl
    stEmpty msgEx oNotJoin brewedEx rfl rfl (by decide) rfl
  exact ⟨h.1, h.2.1, h.2.2.1, h.2.2.2.1, h.2.2.2.2 [] true mEx⟩

/-- C5 (confirmed): a device network-info update whose delta carries a
truthy `status` and whose registry modify succeeds produces exactly the
DEV_NET_CHANGED fire and netChanged indication followed by the derived
DEV_STATUS_CHANGED fire and statusChanged indication — namespace event
first, with the same entity id in all four actions. -/
theorem updateComponent_status_derived (msg : UpdateMsg) (s : String)
    (hs : msg.deltaStatus = some s) (hne : s ≠ "") :
    updateComponent "dev" "net" msg none
      = [Action.fire DEV_NET_CHANGED (some msg.entId),
         Action.tweet "dev" "netChanged" msg.entId,
         Action.fire DEV_STATUS_CHANGED (some msg.entId),
         Action.tweet "dev" "statusChanged" msg.entId] := by
  have hbeq : (s == "") = false := by
    simp [hne]
  have happ : "net" ++ "Changed" = "netChanged" := rfl
  simp [updateComponent, getUpdateEventName, jsTruthy, hs, hbeq, happ]

/-- C5 witness at a concrete status-changing update. -/
theorem updateComponent_status_derived_witness :
    updateComponent "dev" "net" updateMsgEx none
      = [Action.fire DEV_NET_CHANGED (some updateMsgEx.entId),
         Action.tweet "dev" "netChanged" updateMsgEx.entId,
         Action.fire DEV_STATUS_CHANGED (some updateMsgEx.entId),
         Action.tweet "dev" "statusChanged" updateMsgEx.entId] :=
  updateComponent_status_derived updateMsgEx "online" rfl (by decide)

/-- Retry loop of `doGadCook`: while the device id never becomes ready, the
loop starting at `syncTimes = n` schedules one 20 ms retry per remaining
attempt and then gives up with the state untouched. -/
theorem doGadCook_retry_aux (st : FB) (msg : GadMsg) (gadFound : Option GadgetR)
    (o : GadCookOracles) (hready : ∀ k, o.idReady k = false) :
    ∀ fuelm n, n + fuelm = 50 → doGadCook st msg gadFound o n
      = (st, List.replicate fuelm (Action.setTimeoutMs 20), none) := by
  intro fuelm
  induction fuelm with
  | zero =>
    intro n hn
    have h50 : n = 50 := by omega
    subst h50
    rw [doGadCook]
    simp [hready 50]
  | succ k ih =>
    intro n hn
    rw [doGadCook]
    have hnle : ¬ (n + 1 > 50) := by omega
    simp [hready n, hnle, ih (n + 1) (by omega), List.replicate_succ]

/-- C6 (confirmed): a gadget-incoming cook for a device whose id never gets
assigned retries at a fixed 20 ms interval exactly 50 times and then
silently discards the notification: the state (device registry, gadget
registry, coalescing queue) is returned unchanged, nothing is thrown, and
the trace consists of the 50 scheduled 20 ms retries only — no top-level
event fire and no indication. -/
theorem doGadCook_bound_discard (st : FB) (msg : GadMsg) (gadFound : Option GadgetR)
    (o : GadCookOracles) (hready : ∀ k, o.idReady k = false) :
    doGadCook st msg gadFound o 0 = (st, List.replicate 50 (Action.setTimeoutMs 20), none) ∧
    (List.replicate 50 (Action.setTimeoutMs 20)).countP isFireTop = 0 ∧
    (List.replicate 50 (Action.setTimeoutMs 20)).countP isTweet = 0 := by
  refine ⟨doGadCook_retry_aux st msg gadFound o hready 50 0 rfl, ?_, ?_⟩ <;>
    simp [List.countP_eq_zero, List.mem_replicate, isFireTop, isTweet]

/-- C6 witness: oracles whose id check never succeeds. -/
theorem doGadCook_bound_discard_witness :
    oGadTimeout.idReady 0 = false ∧
    doGadCook stWithDev mEx none oGadTimeout 0
      = (stWithDev, List.replicate 50 (Action.setTimeoutMs 20), none) :=
  ⟨rfl, (doGadCook_bound_discard stWithDev mEx none oGadTimeout (fun _ => rfl)).1⟩

/-- C7 (confirmed): a banned-device-incoming notification for a never
registered (ncName, permAddr) fires the banned event and tweets the banned
indication with id 0, returns the state unchanged (no registry mutation),
throws nothing and issues no netcore removal command; when the device is
registered, the nc.remove(permAddr) command is issued. -/
theorem bannedComponent_unregistered_device
    (st1 : FB) (msg1 : BanMsg) (nck1 : Bool) (re1 : Option String)
    (h1 : findDev st1.devs msg1.ncName msg1.permAddr = none)
    (st2 : FB) (msg2 : BanMsg) (d2 : Device) (re2 : Option String)
    (h2 : findDev st2.devs msg2.ncName msg2.permAddr = some d2) :
    ncBannedDevIncoming st1 msg1 nck1 re1
      = { st := st1,
          actions := [Action.fire DEV_BAN_INCOMING none, Action.tweet "dev" DEV_BAN_INCOMING 0],
          thrown := none } ∧
    Action.ncRemove msg1.permAddr ∉ (ncBannedDevIncoming st1 msg1 nck1 re1).actions ∧
    Action.ncRemove msg2.permAddr ∈ (ncBannedDevIncoming st2 msg2 true re2).actions := by
  have hone : ncBannedDevIncoming st1 msg1 nck1 re1
      = { st := st1,
          actions := [Action.fire DEV_BAN_INCOMING none, Action.tweet "dev" DEV_BAN_INCOMING 0],
          thrown := none } := by
    simp [ncBannedDevIncoming, bannedComponent, h1, getBannedEventName]
  refine ⟨hone, ?_, ?_⟩
  · rw [hone]
    simp
  · cases re2 <;> simp [ncBannedDevIncoming, bannedComponent, h2, getBannedEventName]

/-- C7 witness: an empty registry versus a registry holding the device. -/
theorem bannedComponent_unregistered_device_witness :
    ncBannedDevIncoming stEmpty { ncName := "zb", permAddr := "0x01", auxId := "" } true none
      = { st := stEmpty,
          actions := [Action.fire DEV_BAN_INCOMING none, Action.tweet "dev" DEV_BAN_INCOMING 0],
          thrown := none } ∧
    Action.ncRemove "0x01"
      ∉ (ncBannedDevIncoming stEmpty { ncName := "zb", permAddr := "0x01", auxId := "" }
          true none).actions ∧
    Action.ncRemove "0x01"
      ∈ (ncBannedDevIncoming stZb { ncName := "zb", permAddr := "0x01", auxId := "" }
          true none).actions :=
  bannedComponent_unregistered_device
    stEmpty { ncName := "zb", permAddr := "0x01", auxId := "" } true none rfl
    stZb { ncName := "zb", permAddr := "0x01", auxId := "" } devZb none (by decide)

/-- C8 (code-bug evidence): when the named netcore is absent but a matching
device exists, `ncNetBan` and the banned-device handler dereference the
missing netcore while issuing `nc.remove`, and `ncGadIncoming` does so at
`nc.cookRawGad` once the device id is ready — each raising a synchronous
TypeError that escapes to the caller that emitted the notification, instead
of the asynchronous warn/indication surface the propagation policy requires. -/
theorem handlers_throw_on_absent_netcore :
    (ncNetBan stZb { ncName := "zb", permAddr := "0x01", auxId := "" } false none).thrown
      = some "TypeError: cannot call remove of undefined netcore" ∧
    (ncBannedDevIncoming stZb { ncName := "zb", permAddr := "0x01", auxId := "" }
        false none).thrown
      = some "TypeError: cannot call remove of undefined netcore" ∧
    (ncGadIncoming stZb { ncName := "zb", permAddr := "0x01", auxId := "tmp" } oGadNoNc).2.2
      = some "TypeError: cannot call cookRawGad of undefined netcore" := by
  refine ⟨by decide, by decide, ?_⟩
  have hfind : findDev stZb.devs "zb" "0x01" = some devZb := by decide
  simp only [ncGadIncoming, hfind]
  rw [doGadCook]
  simp [oGadNoNc]

end Freebird
